import Mathlib

/-!
Verification of the FSP 2.0 memory-init driver
(`src/drivers/intel/fsp2_0/memory_init.c`).

The driver is embedded shallowly: every function of the source file becomes a
Lean definition of the same name, with the C control flow reproduced branch by
branch.  External collaborators that are not part of the source tree
(`memranges_insert`, the MRC-cache primitives, `fsp_handle_reset`, the
platform callback, the FSP blob itself) appear as fields of an environment
record `FspEnv`, and the observable calls the driver makes to them are
recorded as ghost `Event`s so that temporal properties (ordering,
call counts) can be stated.
-/

namespace FspMemInit

/-- coreboot `enum cb_err`, restricted to the two values this file uses. -/
inductive cb_err where
  | CB_SUCCESS
  | CB_ERR
deriving DecidableEq, Repr

/-- Modelled from the spec: a `RegionEntry` of the Region Map
(`struct range_entry` lives in `memrange.c`, which is not among the sources).
An entry records a base address and a size and covers the half-open address
range `[base, base + size)`. -/
structure range_entry where
  base : Nat
  size : Nat
deriving DecidableEq, Repr

/-- coreboot `range_entry_base`: first address covered by the entry. -/
def range_entry_base (r : range_entry) : Nat := r.base

/-- coreboot `range_entry_end`: first address beyond the entry. -/
def range_entry_end (r : range_entry) : Nat := r.base + r.size

/-- Modelled from the spec: the Region Map (`struct memranges`, from the
missing `memrange.c`) is an ordered collection of `RegionEntry`. -/
abbrev memranges := List range_entry

/-- Modelled from the spec: `memranges_insert` (missing `memrange.c`) records
the range `[base, base + size)` in the map; per the spec the map is queried,
not auto-merged. -/
def memranges_insert (m : memranges) (base size : Nat) : memranges :=
  m ++ [⟨base, size⟩]

/-- `check_region_overlap` from `memory_init.c`: walks the entries; a
candidate `[b, en)` passes an entry when `en <= range_entry_base(r)` or
`b >= range_entry_end(r)`, otherwise the function reports `CB_ERR`. -/
def check_region_overlap (ranges : memranges) (b en : Nat) : cb_err :=
  match ranges with
  | [] => cb_err.CB_SUCCESS
  | r :: rest =>
    if en ≤ range_entry_base r then check_region_overlap rest b en
    else if b ≥ range_entry_end r then check_region_overlap rest b en
    else cb_err.CB_ERR

/-- Semantic overlap of two half-open ranges: nonempty intersection. -/
def rangesOverlap (p q : Nat × Nat) : Bool :=
  max p.1 q.1 < min p.2 q.2

/-- `uintptr_t` subtraction with 64-bit wrap-around, as used by
`setup_fsp_stack_frame` to compute the stack base. -/
def wordSub (a b : Nat) : Nat :=
  (a + (2 ^ 64 - b % 2 ^ 64)) % 2 ^ 64

theorem check_region_overlap_success_iff (m : memranges) (b en : Nat) :
    check_region_overlap m b en = cb_err.CB_SUCCESS ↔
      ∀ r ∈ m, en ≤ range_entry_base r ∨ range_entry_end r ≤ b := by
  induction m with
  | nil => simp [check_region_overlap]
  | cons r rest ih =>
    simp only [check_region_overlap]
    by_cases h1 : en ≤ range_entry_base r
    · simp only [if_pos h1, ih, List.mem_cons]
      constructor
      · intro h x hx
        rcases hx with hx | hx
        · subst hx; exact Or.inl h1
        · exact h x hx
      · intro h x hx
        exact h x (Or.inr hx)
    · by_cases h2 : b ≥ range_entry_end r
      · simp only [if_neg h1, if_pos h2, ih, List.mem_cons]
        constructor
        · intro h x hx
          rcases hx with hx | hx
          · subst hx; exact Or.inr h2
          · exact h x hx
        · intro h x hx
          exact h x (Or.inr hx)
      · simp only [if_neg h1, if_neg h2, List.mem_cons]
        constructor
        · intro h; cases h
        · intro h
          rcases h r (Or.inl rfl) with hx | hx
          · exact absurd hx h1
          · exact absurd hx h2

/-- Build-time configuration switches consulted by `memory_init.c`
(`CONFIG(...)` macros plus the `ENV_CACHE_AS_RAM` environment macro). -/
structure KConfig where
  CACHE_MRC_SETTINGS : Bool
  HAS_RECOVERY_MRC_CACHE : Bool
  FSP2_0_USES_TPM_MRC_HASH : Bool
  FSP_PLATFORM_MEMORY_SETTINGS_VERSIONS : Bool
  FSP_USES_CB_STACK : Bool
  ENV_CACHE_AS_RAM : Bool
  HAVE_ACPI_RESUME : Bool
  FSP_M_XIP : Bool
deriving DecidableEq, Repr

/-- FSP boot-mode values assigned by `fsp_fill_common_arch_params`; the
`BOOT_MODE_DEFAULT` constructor stands for whatever default the UPD copy
carried before the driver assigns the field. -/
inductive boot_mode where
  | FSP_BOOT_WITH_FULL_CONFIGURATION
  | FSP_BOOT_ASSUMING_NO_CONFIGURATION_CHANGES
  | FSP_BOOT_ON_S3_RESUME
  | BOOT_MODE_DEFAULT
deriving DecidableEq, Repr

/-- The fields of `FSPM_ARCH_UPD` that `memory_init.c` reads or writes.
Pointers are `Option Nat` (a null pointer is `none`). -/
structure FSPM_ARCH_UPD where
  StackBase : Option Nat
  StackSize : Nat
  NvsBufferPtr : Option Nat
  BootMode : boot_mode
  BootLoaderTolumSize : Nat
deriving DecidableEq, Repr

/-- `FSP_SUCCESS` status value. -/
def FSP_SUCCESS : Nat := 0

/-- Everything the driver observes from outside `memory_init.c`: linker
symbols, the UPD defaults shipped in the blob, vboot state, the MRC-cache
primitives, the platform callback, and the blob call itself.  Each field is
named after the C symbol whose result it abstracts. -/
structure FspEnv where
  cfg : KConfig
  /-- `upd->FspUpdHeader.Signature == FSPM_UPD_SIGNATURE` -/
  signature_ok : Bool
  /-- arch-UPD default values copied out of the blob's config region -/
  upd_default : FSPM_ARCH_UPD
  /-- `cbmem_overhead_size()` -/
  cbmem_overhead : Nat
  /-- linker symbol `_car_region_start` -/
  car_region_start : Nat
  /-- linker symbol `_car_unallocated_start` -/
  car_unallocated_start : Nat
  /-- linker symbol `_car_region_end` -/
  car_region_end : Nat
  /-- linker symbol `_program` -/
  program_base : Nat
  /-- `REGION_SIZE(program)` -/
  program_size : Nat
  /-- address of the static `temp_ram` buffer -/
  temp_ram_base : Nat
  /-- `sizeof(temp_ram)` = `CONFIG_FSP_TEMP_RAM_SIZE` -/
  temp_ram_size : Nat
  /-- `CONFIG_FSP_M_ADDR` -/
  fsp_m_addr : Nat
  /-- size handed to `fspm_get_dest` for the FSP-M component -/
  fspm_component_size : Nat
  /-- `hdr->fsp_revision` -/
  hdr_revision : Nat
  /-- `fsp_memory_mainboard_version()` -/
  mainboard_version : Nat
  /-- `fsp_memory_soc_version()` -/
  soc_version : Nat
  /-- `vboot_recovery_mode_enabled()` -/
  recovery_mode : Bool
  /-- `get_recovery_mode_retrain_switch()` -/
  retrain_switch : Bool
  /-- `mrc_cache_current_mmap_leak(MRC_TRAINING_DATA, version, &size)`,
  keyed by the version tag; `none` is a miss -/
  mrc_cache_lookup : Nat → Option Nat
  /-- `mrc_cache_verify_hash(data, size)` -/
  mrc_hash_ok : Nat → Bool
  /-- effect of `platform_fsp_memory_init_params_cb` on the arch UPD -/
  callback : FSPM_ARCH_UPD → FSPM_ARCH_UPD
  /-- status returned by the `fsp_raminit` call -/
  raminit_status : Nat
  /-- whether `fsp_handle_reset(status)` performs a reset for that status -/
  reset_requested : Nat → Bool
  /-- base of the range found by `fsp_find_reserved_memory` -/
  fsp_mem_base : Nat
  /-- size of that range -/
  fsp_mem_size : Nat
  /-- nonzero return of `cbmem_initialize_id_size` on the resume path -/
  cbmem_recovery_fails : Bool
  /-- `cbmem_find(CBMEM_ID_FSP_RESERVED_MEMORY)` -/
  cbmem_find_base : Nat
  /-- `fsp_find_nv_storage_data(&size)`: the training-data HOB payload -/
  nv_hob : Option Nat
  /-- header validation and the rest of `fsp_load_component` succeed -/
  load_validate_ok : Bool
  /-- `rdev_mmap_full(source)` result on the XIP path -/
  xip_map_base : Nat
  /-- `hdr->image_base` -/
  hdr_image_base : Nat

/-- Ghost record of the observable calls the driver makes, in program order. -/
inductive Event where
  /-- `memranges_insert` performed while seeding the map in `fsp_memory_init` -/
  | region_seeded (base size : Nat)
  /-- `check_region_overlap` accepted the candidate `[b, en)` -/
  | region_accepted (b en : Nat)
  /-- the single `fsp_raminit` call -/
  | call_module
  /-- `fsp_handle_reset(status)` -/
  | handle_reset (status : Nat)
  /-- `cbmem_initialize_empty_id_size` / `cbmem_initialize_id_size` -/
  | cbmem_init (s3wake : Bool)
  /-- `mrc_cache_stash_data(MRC_TRAINING_DATA, version, ...)` -/
  | stash (version : Nat)
  /-- `mrc_cache_update_hash` -/
  | update_hash
  /-- `romstage_handoff_init(s3wake)` -/
  | romstage_handoff (s3wake : Bool)
deriving DecidableEq, Repr

/-- Terminal outcomes of the flow; the `die_*` constructors are the
`die`/`die_with_post_code` sites of the source, `full_reset` is the
`full_reset()` escalation (including the one inside `fsp_handle_reset`). -/
inductive Outcome where
  /-- `die("FSPM not available or failed to load!")` -/
  | die_fspm_load
  /-- `die_with_post_code(POST_INVALID_VENDOR_BINARY, "Invalid FSPM signature!")` -/
  | die_invalid_signature
  /-- `die_with_post_code(POST_INVALID_VENDOR_BINARY, "FSPM_ARCH_UPD not found!")` -/
  | die_arch_upd
  /-- `full_reset()` -/
  | full_reset
  /-- `die_with_post_code(POST_RAM_FAILURE, ...)` -/
  | die_ram_failure
  /-- `die("Failed to accommodate FSP reserved memory request!")` -/
  | die_cbmem_mismatch
  /-- the flow ran to the end of `fsp_memory_init` -/
  | completed
deriving DecidableEq, Repr

/-- `fsp_memory_settings_version`: the version tag is the blob revision;
with `FSP_PLATFORM_MEMORY_SETTINGS_VERSIONS` the low byte is replaced by
the mainboard nibble (bits 7:4) and the SoC nibble (bits 3:0). -/
def fsp_memory_settings_version (cfg : KConfig)
    (mainboard_version soc_version fsp_revision : Nat) : Nat :=
  let ver := fsp_revision
  if !cfg.FSP_PLATFORM_MEMORY_SETTINGS_VERSIONS then ver
  else
    let ver := Nat.land ver 0xFFFFFF00
    let ver := Nat.lor ver (Nat.shiftLeft (Nat.land 0xf mainboard_version) 4)
    let ver := Nat.lor ver (Nat.land 0xf soc_version)
    ver

/-- `fsp_fill_mrc_cache`: clears `NvsBufferPtr`, then sets it to the cached
training data only when caching is on, recovery does not force a retrain,
the lookup hits, and (when TPM hashing is on) the hash verifies. -/
def fsp_fill_mrc_cache (e : FspEnv) (arch_upd : FSPM_ARCH_UPD)
    (fsp_version : Nat) : FSPM_ARCH_UPD :=
  let arch_upd := { arch_upd with NvsBufferPtr := none }
  if !e.cfg.CACHE_MRC_SETTINGS then arch_upd
  else if e.recovery_mode && !e.cfg.HAS_RECOVERY_MRC_CACHE then arch_upd
  else if e.recovery_mode && e.retrain_switch then arch_upd
  else
    match e.mrc_cache_lookup fsp_version with
    | none => arch_upd
    | some data =>
      if e.cfg.FSP2_0_USES_TPM_MRC_HASH && !e.mrc_hash_ok data then arch_upd
      else { arch_upd with NvsBufferPtr := some data }

/-- `setup_fsp_stack_frame`: carve `StackSize` bytes off the top of the CAR
region and fail the flow when the carve overlaps the region map. -/
def setup_fsp_stack_frame (e : FspEnv) (arch_upd : FSPM_ARCH_UPD)
    (memmap : memranges) : Option FSPM_ARCH_UPD :=
  let stack_end := e.car_region_end
  let stack_begin := wordSub stack_end arch_upd.StackSize
  if check_region_overlap memmap stack_begin stack_end ≠ cb_err.CB_SUCCESS then
    none
  else
    some { arch_upd with StackBase := some stack_begin }

/-- `fsp_fill_common_arch_params`: stack placement, MRC-cache fill, then the
three-way boot-mode selection. `none` is the `CB_ERR` return. -/
def fsp_fill_common_arch_params (e : FspEnv) (arch_upd : FSPM_ARCH_UPD)
    (s3wake : Bool) (fsp_version : Nat) (memmap : memranges) :
    Option FSPM_ARCH_UPD :=
  let step :=
    if e.cfg.FSP_USES_CB_STACK || !e.cfg.ENV_CACHE_AS_RAM then
      some { arch_upd with StackBase := some e.temp_ram_base,
                           StackSize := e.temp_ram_size }
    else
      setup_fsp_stack_frame e arch_upd memmap
  match step with
  | none => none
  | some a =>
    let a := fsp_fill_mrc_cache e a fsp_version
    let a :=
      if s3wake then
        { a with BootMode := boot_mode.FSP_BOOT_ON_S3_RESUME }
      else if a.NvsBufferPtr.isSome then
        { a with BootMode := boot_mode.FSP_BOOT_ASSUMING_NO_CONFIGURATION_CHANGES }
      else
        { a with BootMode := boot_mode.FSP_BOOT_WITH_FULL_CONFIGURATION }
    some a

/-- `save_memory_training_data`: returns the cache calls made.  Nothing is
stashed when caching is off, on resume, or when the training-data HOB is
missing; otherwise exactly one `mrc_cache_stash_data` call is made (its own
failure only logs), followed by `mrc_cache_update_hash` when TPM hashing is
configured. -/
def save_memory_training_data (e : FspEnv) (s3wake : Bool)
    (fsp_version : Nat) : List Event :=
  if !e.cfg.CACHE_MRC_SETTINGS || s3wake then []
  else
    match e.nv_hob with
    | none => []
    | some _ =>
      Event.stash fsp_version ::
        (if e.cfg.FSP2_0_USES_TPM_MRC_HASH then [Event.update_hash] else [])

/-- `do_fsp_post_memory_init`: CBMEM bring-up (fresh on cold boot, recovery
on resume, with the resume-failure reset when ACPI resume is configured),
the reserved-base reconciliation gate, the training-data save, and the
romstage handoff. -/
def do_fsp_post_memory_init (e : FspEnv) (s3wake : Bool)
    (fsp_version : Nat) : Outcome × List Event :=
  let tail : Outcome × List Event :=
    if e.fsp_mem_base ≠ e.cbmem_find_base then
      (Outcome.die_cbmem_mismatch, [Event.cbmem_init s3wake])
    else
      (Outcome.completed,
        Event.cbmem_init s3wake ::
          (save_memory_training_data e s3wake fsp_version ++
            [Event.romstage_handoff s3wake]))
  if !s3wake then tail
  else if e.cbmem_recovery_fails then
    if e.cfg.HAVE_ACPI_RESUME then (Outcome.full_reset, [Event.cbmem_init s3wake])
    else tail
  else tail

/-- The arch UPD as it stands when `do_fsp_memory_init` tests
`s3wake && !arch_upd->NvsBufferPtr`: defaults with `BootLoaderTolumSize`
set, passed through `fsp_fill_common_arch_params` and then through the
platform callback. -/
def fspm_arch_upd_after_cb (e : FspEnv) (s3wake : Bool)
    (memmap : memranges) : Option FSPM_ARCH_UPD :=
  let fsp_version := fsp_memory_settings_version e.cfg e.mainboard_version
    e.soc_version e.hdr_revision
  (fsp_fill_common_arch_params e
      { e.upd_default with BootLoaderTolumSize := e.cbmem_overhead }
      s3wake fsp_version memmap).map e.callback

/-- Ghost record of the candidate range accepted by the
`setup_fsp_stack_frame` check inside a successful
`fsp_fill_common_arch_params` run: empty when the temp-RAM path was taken,
otherwise the carved stack range. -/
def stack_frame_events (e : FspEnv) : List Event :=
  if e.cfg.FSP_USES_CB_STACK || !e.cfg.ENV_CACHE_AS_RAM then []
  else
    [Event.region_accepted
      (wordSub e.car_region_end e.upd_default.StackSize)
      e.car_region_end]

/-- `do_fsp_memory_init`: signature gate, parameter building (the ghost
`stack_frame_events` re-state the stack range that `setup_fsp_stack_frame`
checked, on the CAR path), the resume-without-cache reset, the single blob
call, `fsp_handle_reset`, the status gate, and the post-init phase. -/
def do_fsp_memory_init (e : FspEnv) (s3wake : Bool) (memmap : memranges) :
    Outcome × List Event :=
  let fsp_version := fsp_memory_settings_version e.cfg e.mainboard_version
    e.soc_version e.hdr_revision
  if !e.signature_ok then (Outcome.die_invalid_signature, [])
  else
    match fspm_arch_upd_after_cb e s3wake memmap with
    | none => (Outcome.die_arch_upd, [])
    | some a =>
      if s3wake && a.NvsBufferPtr.isNone then
        (Outcome.full_reset, stack_frame_events e)
      else
        let evs := stack_frame_events e ++
          [Event.call_module, Event.handle_reset e.raminit_status]
        if e.reset_requested e.raminit_status then (Outcome.full_reset, evs)
        else if e.raminit_status ≠ FSP_SUCCESS then
          (Outcome.die_ram_failure, evs)
        else
          let post := do_fsp_post_memory_init e s3wake fsp_version
          (post.1, evs ++ post.2)

/-- `fspm_get_dest`: XIP components must validate and map at the declared
image base; non-XIP components land at `CONFIG_FSP_M_ADDR` after the overlap
check.  `none` is the `-1` return; a success carries the ghost
`region_accepted` event for the checked range. -/
def fspm_get_dest (e : FspEnv) (memmap : memranges) (size : Nat) :
    Option (Nat × List Event) :=
  if e.cfg.FSP_M_XIP then
    if !e.load_validate_ok then none
    else if e.xip_map_base ≠ e.hdr_image_base then none
    else some (e.xip_map_base, [])
  else
    let fspm_begin := e.fsp_m_addr
    let fspm_end := fspm_begin + size
    if check_region_overlap memmap fspm_begin fspm_end ≠ cb_err.CB_SUCCESS then
      none
    else
      some (fspm_begin, [Event.region_accepted fspm_begin fspm_end])

/-- Modelled from the spec: `fsp_load_component` (Module Invoker, in the
missing `fsp2_0` loader sources) locates and validates the component and asks
`fspm_get_dest` (which is in the sources) for the destination; any failure
aborts the load. -/
def fsp_load_component (e : FspEnv) (memmap : memranges) :
    Option (List Event) :=
  if !e.load_validate_ok then none
  else
    match fspm_get_dest e memmap e.fspm_component_size with
    | none => none
    | some de => some de.2

/-- The region map as seeded at the top of `fsp_memory_init`: the allocated
part of the CAR region (when running from CAR) and the program image. -/
def seedMemmap (e : FspEnv) : memranges :=
  let memmap : memranges := []
  let memmap :=
    if e.cfg.ENV_CACHE_AS_RAM then
      memranges_insert memmap e.car_region_start
        (e.car_unallocated_start - e.car_region_start)
    else memmap
  memranges_insert memmap e.program_base e.program_size

/-- `fsp_memory_init`: seed the region map, load FSP-M (dying when the load
fails) and run `do_fsp_memory_init`. -/
def fsp_memory_init (e : FspEnv) (s3wake : Bool) : Outcome × List Event :=
  let memmap := seedMemmap e
  let seedEvs := memmap.map (fun r => Event.region_seeded r.base r.size)
  match fsp_load_component e memmap with
  | none => (Outcome.die_fspm_load, seedEvs)
  | some evs =>
    let rest := do_fsp_memory_init e s3wake memmap
    (rest.1, seedEvs ++ evs ++ rest.2)

/-- Ranges recorded into the region map (`region_seeded` ghost events),
as half-open pairs. -/
def seededRegions (evs : List Event) : List (Nat × Nat) :=
  evs.filterMap fun ev =>
    match ev with
    | Event.region_seeded b s => some (b, b + s)
    | _ => none

/-- Candidate ranges accepted by `check_region_overlap`
(`region_accepted` ghost events). -/
def candidateRegions (evs : List Event) : List (Nat × Nat) :=
  evs.filterMap fun ev =>
    match ev with
    | Event.region_accepted b en => some (b, en)
    | _ => none

/-- All regions the flow accepted: map entries plus accepted candidates. -/
def acceptedRegions (evs : List Event) : List (Nat × Nat) :=
  evs.filterMap fun ev =>
    match ev with
    | Event.region_seeded b s => some (b, b + s)
    | Event.region_accepted b en => some (b, en)
    | _ => none

/-- No two listed ranges intersect. -/
def pairwiseDisjoint : List (Nat × Nat) → Bool
  | [] => true
  | r :: rest => rest.all (fun s => !rangesOverlap r s) && pairwiseDisjoint rest

/-- Number of `mrc_cache_stash_data` calls in a trace. -/
def countStash (evs : List Event) : Nat :=
  evs.countP fun ev =>
    match ev with
    | Event.stash _ => true
    | _ => false

/-- A concrete CAR-based, non-XIP platform used to evaluate the flow on
explicit inputs: CAR `[0x1000, 0x4000)` with `[0x1000, 0x2000)` allocated,
the program at `[0x8000, 0x9000)`, FSP-M loaded to `[0x20000, 0x21000)`,
a 0x1000-byte FSPM stack request, a cold MRC-cache miss, and a blob call
that returns success. -/
def baseEnv : FspEnv where
  cfg :=
    { CACHE_MRC_SETTINGS := true
      HAS_RECOVERY_MRC_CACHE := false
      FSP2_0_USES_TPM_MRC_HASH := false
      FSP_PLATFORM_MEMORY_SETTINGS_VERSIONS := false
      FSP_USES_CB_STACK := false
      ENV_CACHE_AS_RAM := true
      HAVE_ACPI_RESUME := true
      FSP_M_XIP := false }
  signature_ok := true
  upd_default :=
    { StackBase := none
      StackSize := 0x1000
      NvsBufferPtr := none
      BootMode := boot_mode.BOOT_MODE_DEFAULT
      BootLoaderTolumSize := 0 }
  cbmem_overhead := 64
  car_region_start := 0x1000
  car_unallocated_start := 0x2000
  car_region_end := 0x4000
  program_base := 0x8000
  program_size := 0x1000
  temp_ram_base := 0x10000
  temp_ram_size := 0x2000
  fsp_m_addr := 0x20000
  fspm_component_size := 0x1000
  hdr_revision := 5
  mainboard_version := 0
  soc_version := 0
  recovery_mode := false
  retrain_switch := false
  mrc_cache_lookup := fun _ => none
  mrc_hash_ok := fun _ => true
  callback := id
  raminit_status := 0
  reset_requested := fun _ => false
  fsp_mem_base := 0x100000
  fsp_mem_size := 0x10000
  cbmem_recovery_fails := false
  cbmem_find_base := 0x100000
  nv_hob := some 0x42
  load_validate_ok := true
  xip_map_base := 0
  hdr_image_base := 0

example : (fsp_memory_init baseEnv false).1 = Outcome.completed := by rfl

example : countStash (fsp_memory_init baseEnv false).2 = 1 := by rfl

example :
    acceptedRegions (fsp_memory_init baseEnv false).2 =
      [(0x1000, 0x2000), (0x8000, 0x9000), (0x20000, 0x21000),
       (0x3000, 0x4000)] := by rfl

example : (fsp_memory_init baseEnv true).1 = Outcome.full_reset := by rfl

/-- C6: with platform versioning disabled, a module revision of `0x00000005`
derives the cache version `0x00000005`; with platform versioning enabled and
board id 2, SoC id 9, revision `0x00000005` derives `0x00000029` (low nibble
from the SoC id, next nibble from the board id, upper 24 bits kept from the
revision). -/
theorem C6_settings_version_values :
    fsp_memory_settings_version
        { baseEnv.cfg with FSP_PLATFORM_MEMORY_SETTINGS_VERSIONS := false }
        0 0 0x00000005 = 0x00000005 ∧
    fsp_memory_settings_version
        { baseEnv.cfg with FSP_PLATFORM_MEMORY_SETTINGS_VERSIONS := true }
        2 9 0x00000005 = 0x00000029 := by
  exact ⟨rfl, rfl⟩

/-- C10 counterexample: the zero-length candidate `[0x1800, 0x1800)` lies
strictly inside the entry `[0x1000, 0x2000)` and `check_region_overlap`
rejects it, refuting the claim that a zero-length candidate is always
accepted. -/
theorem C10_counterexample :
    check_region_overlap [{ base := 0x1000, size := 0x1000 }] 0x1800 0x1800 ≠
      cb_err.CB_SUCCESS := by
  decide

/-- C10 amended: `check_region_overlap` accepts a candidate `[b, en)` exactly
when, against every entry, `en ≤ base` or `entry end ≤ b` (so ranges merely
touching an entry boundary are not overlaps); a zero-length candidate
`[b, b)` is accepted exactly when its position does not lie strictly inside
any entry — one strictly inside an entry is rejected. -/
theorem C10_half_open_check :
    (∀ (m : memranges) (b en : Nat),
        check_region_overlap m b en = cb_err.CB_SUCCESS ↔
          ∀ r ∈ m, en ≤ range_entry_base r ∨ range_entry_end r ≤ b) ∧
    (∀ (m : memranges) (b : Nat),
        check_region_overlap m b b = cb_err.CB_SUCCESS ↔
          ∀ r ∈ m, b ≤ range_entry_base r ∨ range_entry_end r ≤ b) := by
  refine ⟨check_region_overlap_success_iff, fun m b => ?_⟩
  exact check_region_overlap_success_iff m b b

/-- C3: whenever `fsp_fill_common_arch_params` succeeds, the boot mode of the
produced arch UPD is exactly the three-way choice: resume mode on `s3wake`,
otherwise "assume no configuration changes" when the cached-data pointer is
set and "full configuration" when it is not; no other value is selected. -/
theorem C3_boot_mode_three_way (e : FspEnv) (arch a : FSPM_ARCH_UPD)
    (s3wake : Bool) (v : Nat) (memmap : memranges)
    (h : fsp_fill_common_arch_params e arch s3wake v memmap = some a) :
    a.BootMode =
      (if s3wake then boot_mode.FSP_BOOT_ON_S3_RESUME
       else if a.NvsBufferPtr.isSome then
         boot_mode.FSP_BOOT_ASSUMING_NO_CONFIGURATION_CHANGES
       else boot_mode.FSP_BOOT_WITH_FULL_CONFIGURATION) := by
  unfold fsp_fill_common_arch_params at h
  rcases hstep :
      (if e.cfg.FSP_USES_CB_STACK || !e.cfg.ENV_CACHE_AS_RAM then
        some { arch with StackBase := some e.temp_ram_base,
                         StackSize := e.temp_ram_size }
      else setup_fsp_stack_frame e arch memmap) with _ | a0
  · rw [hstep] at h
    cases h
  · rw [hstep] at h
    simp only [Option.some.injEq] at h
    subst h
    cases s3wake with
    | false =>
      by_cases hn : (fsp_fill_mrc_cache e a0 v).NvsBufferPtr.isSome
      · simp [hn]
      · simp [hn]
    | true => simp

/-- The arch UPD that `fsp_fill_common_arch_params` produces on a cold
cache-miss boot of `baseEnv`, used as witness input. -/
def coldMissArchUpd : FSPM_ARCH_UPD where
  StackBase := some 0x3000
  StackSize := 0x1000
  NvsBufferPtr := none
  BootMode := boot_mode.FSP_BOOT_WITH_FULL_CONFIGURATION
  BootLoaderTolumSize := 0

theorem C3_boot_mode_three_way_witness :
    coldMissArchUpd.BootMode =
      (if false then boot_mode.FSP_BOOT_ON_S3_RESUME
       else if coldMissArchUpd.NvsBufferPtr.isSome then
         boot_mode.FSP_BOOT_ASSUMING_NO_CONFIGURATION_CHANGES
       else boot_mode.FSP_BOOT_WITH_FULL_CONFIGURATION) :=
  C3_boot_mode_three_way baseEnv baseEnv.upd_default coldMissArchUpd false 5
    (seedMemmap baseEnv) (by rfl)

/-- C9: `fsp_fill_mrc_cache` nulls the cached-data pointer first, so the
result never depends on the pointer's previous value, and on return the
pointer holds `d` exactly when caching is enabled, recovery does not force a
bypass, the lookup returned `d`, and (when integrity binding is configured)
the hash verified; on every other path it is null. -/
theorem C9_nvs_pointer_characterisation (e : FspEnv) (arch : FSPM_ARCH_UPD)
    (v : Nat) :
    (∀ x, (fsp_fill_mrc_cache e { arch with NvsBufferPtr := x } v).NvsBufferPtr =
          (fsp_fill_mrc_cache e arch v).NvsBufferPtr) ∧
    (∀ d, (fsp_fill_mrc_cache e arch v).NvsBufferPtr = some d ↔
      e.cfg.CACHE_MRC_SETTINGS = true ∧
      (e.recovery_mode = true →
        e.cfg.HAS_RECOVERY_MRC_CACHE = true ∧ e.retrain_switch = false) ∧
      e.mrc_cache_lookup v = some d ∧
      (e.cfg.FSP2_0_USES_TPM_MRC_HASH = true → e.mrc_hash_ok d = true)) := by
  constructor
  · intro x
    unfold fsp_fill_mrc_cache
    rcases hl : e.mrc_cache_lookup v with _ | data <;>
      split_ifs <;> simp [hl]
  · intro d
    unfold fsp_fill_mrc_cache
    rcases hl : e.mrc_cache_lookup v with _ | data <;>
      cases hc : e.cfg.CACHE_MRC_SETTINGS <;>
      cases hr : e.recovery_mode <;>
      cases hh : e.cfg.HAS_RECOVERY_MRC_CACHE <;>
      cases hs : e.retrain_switch <;>
      cases ht : e.cfg.FSP2_0_USES_TPM_MRC_HASH <;>
      simp_all
    all_goals cases hv : e.mrc_hash_ok data <;> simp_all
    all_goals rintro rfl
    all_goals exact hv

theorem fill_mrc_cache_recovery_bypass (e : FspEnv) (arch : FSPM_ARCH_UPD)
    (v : Nat) (hrec : e.recovery_mode = true)
    (hby : e.cfg.HAS_RECOVERY_MRC_CACHE = false ∨ e.retrain_switch = true) :
    fsp_fill_mrc_cache e arch v = { arch with NvsBufferPtr := none } := by
  unfold fsp_fill_mrc_cache
  rcases hby with hby | hby <;> simp [hrec, hby]

/-- C8: in recovery mode the cache is bypassed (the cached-data pointer is
left null) whenever recovery-cache support is absent or the retrain switch is
set; a payload failing hash verification under integrity binding leaves the
pointer null exactly like a miss; and because the bypass happens before
boot-mode selection, a cold recovery-bypass boot selects full configuration. -/
theorem C8_recovery_bypass_and_hash_fail (e : FspEnv) (arch : FSPM_ARCH_UPD)
    (v : Nat) :
    (e.recovery_mode = true →
      (e.cfg.HAS_RECOVERY_MRC_CACHE = false ∨ e.retrain_switch = true) →
      fsp_fill_mrc_cache e arch v = { arch with NvsBufferPtr := none }) ∧
    (∀ d, e.cfg.FSP2_0_USES_TPM_MRC_HASH = true →
      e.mrc_cache_lookup v = some d → e.mrc_hash_ok d = false →
      fsp_fill_mrc_cache e arch v = { arch with NvsBufferPtr := none }) ∧
    (∀ (memmap : memranges) (a : FSPM_ARCH_UPD),
      e.recovery_mode = true →
      (e.cfg.HAS_RECOVERY_MRC_CACHE = false ∨ e.retrain_switch = true) →
      fsp_fill_common_arch_params e arch false v memmap = some a →
      a.BootMode = boot_mode.FSP_BOOT_WITH_FULL_CONFIGURATION) := by
  refine ⟨fill_mrc_cache_recovery_bypass e arch v, fun d ht hl hv => ?_, ?_⟩
  · unfold fsp_fill_mrc_cache
    simp only [hl, ht, hv]
    cases hc : e.cfg.CACHE_MRC_SETTINGS <;>
      cases hr : e.recovery_mode <;>
      cases hh : e.cfg.HAS_RECOVERY_MRC_CACHE <;>
      cases hs : e.retrain_switch <;>
      simp
  · intro memmap a hrec hby h
    unfold fsp_fill_common_arch_params at h
    rcases hstep :
        (if e.cfg.FSP_USES_CB_STACK || !e.cfg.ENV_CACHE_AS_RAM then
          some { arch with StackBase := some e.temp_ram_base,
                           StackSize := e.temp_ram_size }
        else setup_fsp_stack_frame e arch memmap) with _ | a0
    · rw [hstep] at h
      cases h
    · rw [hstep] at h
      simp only [Option.some.injEq] at h
      rw [fill_mrc_cache_recovery_bypass e a0 v hrec hby] at h
      subst h
      simp

/-- `baseEnv` booted in recovery mode; recovery-cache support is absent. -/
def recoveryEnv : FspEnv := { baseEnv with recovery_mode := true }

/-- `baseEnv` with integrity binding enabled, a cache hit, and a payload
that fails hash verification. -/
def hashFailEnv : FspEnv :=
  { baseEnv with
      cfg := { baseEnv.cfg with FSP2_0_USES_TPM_MRC_HASH := true }
      mrc_cache_lookup := fun _ => some 7
      mrc_hash_ok := fun _ => false }

theorem C8_recovery_bypass_and_hash_fail_witness :
    fsp_fill_mrc_cache recoveryEnv baseEnv.upd_default 5 =
      { baseEnv.upd_default with NvsBufferPtr := none } ∧
    fsp_fill_mrc_cache hashFailEnv baseEnv.upd_default 5 =
      { baseEnv.upd_default with NvsBufferPtr := none } ∧
    coldMissArchUpd.BootMode = boot_mode.FSP_BOOT_WITH_FULL_CONFIGURATION :=
  ⟨(C8_recovery_bypass_and_hash_fail recoveryEnv baseEnv.upd_default 5).1
      rfl (Or.inl rfl),
   (C8_recovery_bypass_and_hash_fail hashFailEnv baseEnv.upd_default 5).2.1
      7 rfl rfl rfl,
   (C8_recovery_bypass_and_hash_fail recoveryEnv baseEnv.upd_default 5).2.2
      (seedMemmap recoveryEnv) coldMissArchUpd rfl (Or.inl rfl) (by rfl)⟩

theorem mem_stack_frame_events (e : FspEnv) (ev : Event)
    (h : ev ∈ stack_frame_events e) :
    ∃ b en, ev = Event.region_accepted b en := by
  unfold stack_frame_events at h
  split_ifs at h
  · cases h
  · simp at h
    exact ⟨_, _, h⟩

theorem call_module_not_in_stack_frame_events (e : FspEnv) :
    Event.call_module ∉ stack_frame_events e := by
  intro hmem
  rcases mem_stack_frame_events e _ hmem with ⟨b, en, hx⟩
  cases hx

theorem cbmem_init_not_in_stack_frame_events (e : FspEnv) (s3 : Bool) :
    Event.cbmem_init s3 ∉ stack_frame_events e := by
  intro hmem
  rcases mem_stack_frame_events e _ hmem with ⟨b, en, hx⟩
  cases hx

theorem romstage_handoff_not_in_stack_frame_events (e : FspEnv) (s3 : Bool) :
    Event.romstage_handoff s3 ∉ stack_frame_events e := by
  intro hmem
  rcases mem_stack_frame_events e _ hmem with ⟨b, en, hx⟩
  cases hx

theorem fsp_load_component_events (e : FspEnv) (memmap : memranges)
    (evs : List Event) (h : fsp_load_component e memmap = some evs) :
    evs = [] ∨ ∃ b en, evs = [Event.region_accepted b en] := by
  simp only [fsp_load_component, fspm_get_dest] at h
  split_ifs at h <;>
    first
      | (simp only [Option.some.injEq] at h
         subst h
         first
           | (left; rfl)
           | (right; exact ⟨_, _, rfl⟩))
      | cases h

/-- C2: on a resume boot whose arch UPD, after parameter building and the
platform callback, carries a null cached-data pointer, the flow issues a full
reset (when the flow got as far as parameter building at all) and the module
entry point is never called, neither in `do_fsp_memory_init` nor anywhere in
the surrounding `fsp_memory_init` flow. -/
theorem C2_resume_without_cache_resets (e : FspEnv) (a : FSPM_ARCH_UPD)
    (h1 : fspm_arch_upd_after_cb e true (seedMemmap e) = some a)
    (h2 : a.NvsBufferPtr = none) :
    (e.signature_ok = true →
      (do_fsp_memory_init e true (seedMemmap e)).1 = Outcome.full_reset) ∧
    Event.call_module ∉ (do_fsp_memory_init e true (seedMemmap e)).2 ∧
    Event.call_module ∉ (fsp_memory_init e true).2 := by
  have hdo : ∀ hsig : e.signature_ok = true,
      do_fsp_memory_init e true (seedMemmap e) =
        (Outcome.full_reset, stack_frame_events e) := by
    intro hsig
    unfold do_fsp_memory_init
    simp only [hsig, h1]
    simp [h2, Option.isNone]
  have hnotin :
      Event.call_module ∉ (do_fsp_memory_init e true (seedMemmap e)).2 := by
    by_cases hsig : e.signature_ok
    · rw [hdo hsig]
      exact call_module_not_in_stack_frame_events e
    · unfold do_fsp_memory_init
      simp [hsig]
  refine ⟨fun hsig => by rw [hdo hsig], hnotin, ?_⟩
  rcases hload : fsp_load_component e (seedMemmap e) with _ | evs
  · simp only [fsp_memory_init, hload]
    simp
  · simp only [fsp_memory_init, hload]
    simp only [List.mem_append, List.mem_map]
    rintro ((⟨r, hmem, hr⟩ | hmem) | hmem)
    · cases hr
    · rcases fsp_load_component_events e (seedMemmap e) evs hload with rfl | ⟨b, en, rfl⟩
      · cases hmem
      · simp at hmem
    · exact hnotin hmem

/-- The arch UPD `fspm_arch_upd_after_cb` produces for a resume boot of
`baseEnv` (whose cache lookup misses), used as witness input. -/
def resumeMissArchUpd : FSPM_ARCH_UPD where
  StackBase := some 0x3000
  StackSize := 0x1000
  NvsBufferPtr := none
  BootMode := boot_mode.FSP_BOOT_ON_S3_RESUME
  BootLoaderTolumSize := 64

theorem C2_resume_without_cache_resets_witness :
    (do_fsp_memory_init baseEnv true (seedMemmap baseEnv)).1 =
      Outcome.full_reset ∧
    Event.call_module ∉ (fsp_memory_init baseEnv true).2 :=
  ⟨(C2_resume_without_cache_resets baseEnv resumeMissArchUpd
      (by rfl) rfl).1 rfl,
   (C2_resume_without_cache_resets baseEnv resumeMissArchUpd
      (by rfl) rfl).2.2⟩

theorem countStash_append (a b : List Event) :
    countStash (a ++ b) = countStash a + countStash b :=
  List.countP_append _ _ _

theorem countStash_seeds (m : memranges) :
    countStash (m.map fun r => Event.region_seeded r.base r.size) = 0 := by
  induction m with
  | nil => rfl
  | cons r rest ih => simpa [countStash, List.countP_cons] using ih

theorem countStash_stack_frame_events (e : FspEnv) :
    countStash (stack_frame_events e) = 0 := by
  unfold countStash stack_frame_events
  split_ifs <;> rfl

theorem save_resume_eq_nil (e : FspEnv) (v : Nat) :
    save_memory_training_data e true v = [] := by
  unfold save_memory_training_data
  rw [if_pos (Bool.or_true _)]

theorem countStash_post_resume (e : FspEnv) (v : Nat) :
    countStash (do_fsp_post_memory_init e true v).2 = 0 := by
  unfold do_fsp_post_memory_init
  rw [save_resume_eq_nil]
  split_ifs <;> rfl

theorem countStash_do_resume (e : FspEnv) (memmap : memranges) :
    countStash (do_fsp_memory_init e true memmap).2 = 0 := by
  by_cases hsig : e.signature_ok
  · rcases hcb : fspm_arch_upd_after_cb e true memmap with _ | a
    · unfold do_fsp_memory_init
      simp [hsig, hcb, countStash]
    · by_cases hnv : a.NvsBufferPtr.isNone
      · have hD : do_fsp_memory_init e true memmap =
            (Outcome.full_reset, stack_frame_events e) := by
          unfold do_fsp_memory_init
          simp [hsig, hcb, hnv]
        rw [hD]
        exact countStash_stack_frame_events e
      · by_cases hrr : e.reset_requested e.raminit_status
        · have hD : do_fsp_memory_init e true memmap =
              (Outcome.full_reset, stack_frame_events e ++
                [Event.call_module,
                 Event.handle_reset e.raminit_status]) := by
            unfold do_fsp_memory_init
            simp [hsig, hcb, hnv, hrr]
          rw [hD]
          rw [countStash_append, countStash_stack_frame_events]
          rfl
        · by_cases hst : e.raminit_status = FSP_SUCCESS
          · have hrrf : e.reset_requested FSP_SUCCESS = false := by
              rw [← hst]
              exact Bool.eq_false_iff.mpr hrr
            have hD : do_fsp_memory_init e true memmap =
                ((do_fsp_post_memory_init e true
                    (fsp_memory_settings_version e.cfg e.mainboard_version
                      e.soc_version e.hdr_revision)).1,
                  (stack_frame_events e ++
                    [Event.call_module,
                     Event.handle_reset e.raminit_status]) ++
                  (do_fsp_post_memory_init e true
                    (fsp_memory_settings_version e.cfg e.mainboard_version
                      e.soc_version e.hdr_revision)).2) := by
              unfold do_fsp_memory_init
              simp [hsig, hcb, hnv, hrr, hst, hrrf]
            rw [hD]
            rw [countStash_append, countStash_append,
              countStash_stack_frame_events, countStash_post_resume]
            rfl
          · have hD : do_fsp_memory_init e true memmap =
                (Outcome.die_ram_failure, stack_frame_events e ++
                  [Event.call_module,
                   Event.handle_reset e.raminit_status]) := by
              unfold do_fsp_memory_init
              simp [hsig, hcb, hnv, hrr, hst]
            rw [hD]
            rw [countStash_append, countStash_stack_frame_events]
            rfl
  · unfold do_fsp_memory_init
    simp [hsig, countStash]

/-- C5: a resume boot never writes the training cache — no execution of the
flow with `s3wake = true` contains a `mrc_cache_stash_data` call, whatever
the environment (including the module's status) looks like. -/
theorem C5_resume_never_stashes (e : FspEnv) :
    countStash (fsp_memory_init e true).2 = 0 := by
  rcases hload : fsp_load_component e (seedMemmap e) with _ | evs
  · simp only [fsp_memory_init, hload]
    exact countStash_seeds _
  · simp only [fsp_memory_init, hload]
    rw [countStash_append, countStash_append, countStash_seeds,
      countStash_do_resume]
    rcases fsp_load_component_events e (seedMemmap e) evs hload with
      rfl | ⟨b, en, rfl⟩ <;> rfl

/-- C7: whenever the module is called, `fsp_handle_reset` runs on the
returned status; a module-requested reset wins over the success check (the
outcome is a full reset even for a non-success status); and a non-success
status with no reset request dies with the RAM-failure fault code without
any post-init reconciliation event (no CBMEM bring-up, no handoff). -/
theorem C7_reset_check_then_status_gate (e : FspEnv) (s3wake : Bool)
    (memmap : memranges) :
    (Event.call_module ∈ (do_fsp_memory_init e s3wake memmap).2 →
      Event.handle_reset e.raminit_status ∈
        (do_fsp_memory_init e s3wake memmap).2) ∧
    (e.reset_requested e.raminit_status = true →
      Event.call_module ∈ (do_fsp_memory_init e s3wake memmap).2 →
      (do_fsp_memory_init e s3wake memmap).1 = Outcome.full_reset) ∧
    (e.reset_requested e.raminit_status = false →
      e.raminit_status ≠ FSP_SUCCESS →
      Event.call_module ∈ (do_fsp_memory_init e s3wake memmap).2 →
      (do_fsp_memory_init e s3wake memmap).1 = Outcome.die_ram_failure ∧
      Event.cbmem_init s3wake ∉ (do_fsp_memory_init e s3wake memmap).2 ∧
      Event.romstage_handoff s3wake ∉
        (do_fsp_memory_init e s3wake memmap).2) := by
  by_cases hsig : e.signature_ok
  · rcases hcb : fspm_arch_upd_after_cb e s3wake memmap with _ | a
    · unfold do_fsp_memory_init
      simp [hsig, hcb]
    · by_cases hnv : (s3wake && a.NvsBufferPtr.isNone) = true
      · have hD : do_fsp_memory_init e s3wake memmap =
            (Outcome.full_reset, stack_frame_events e) := by
          unfold do_fsp_memory_init
          simp [hsig, hcb, hnv]
        rw [hD]
        exact ⟨fun hmem =>
            absurd hmem (call_module_not_in_stack_frame_events e),
          fun _ hmem =>
            absurd hmem (call_module_not_in_stack_frame_events e),
          fun _ _ hmem =>
            absurd hmem (call_module_not_in_stack_frame_events e)⟩
      · by_cases hrr : e.reset_requested e.raminit_status
        · have hD : do_fsp_memory_init e s3wake memmap =
              (Outcome.full_reset, stack_frame_events e ++
                [Event.call_module, Event.handle_reset e.raminit_status]) := by
            unfold do_fsp_memory_init
            simp [hsig, hcb, hnv, hrr]
          rw [hD]
          exact ⟨fun _ => by simp, fun _ _ => rfl,
            fun hfalse => by rw [hfalse] at hrr; cases hrr⟩
        · by_cases hst : e.raminit_status = FSP_SUCCESS
          · have hrrf : e.reset_requested FSP_SUCCESS = false := by
              rw [← hst]
              exact Bool.eq_false_iff.mpr hrr
            have hD : do_fsp_memory_init e s3wake memmap =
                ((do_fsp_post_memory_init e s3wake
                    (fsp_memory_settings_version e.cfg e.mainboard_version
                      e.soc_version e.hdr_revision)).1,
                  (stack_frame_events e ++
                    [Event.call_module,
                     Event.handle_reset e.raminit_status]) ++
                  (do_fsp_post_memory_init e s3wake
                    (fsp_memory_settings_version e.cfg e.mainboard_version
                      e.soc_version e.hdr_revision)).2) := by
              unfold do_fsp_memory_init
              simp [hsig, hcb, hnv, hrr, hst, hrrf]
            rw [hD]
            exact ⟨fun _ => by simp, fun htrue => absurd htrue hrr,
              fun _ hne => absurd hst hne⟩
          · have hD : do_fsp_memory_init e s3wake memmap =
                (Outcome.die_ram_failure, stack_frame_events e ++
                  [Event.call_module,
                   Event.handle_reset e.raminit_status]) := by
              unfold do_fsp_memory_init
              simp [hsig, hcb, hnv, hrr, hst]
            rw [hD]
            refine ⟨fun _ => by simp, fun htrue => absurd htrue hrr,
              fun _ _ _ => ⟨rfl, ?_, ?_⟩⟩
            · intro hmem
              rw [List.mem_append] at hmem
              rcases hmem with hmem | hmem
              · exact cbmem_init_not_in_stack_frame_events e s3wake hmem
              · simp at hmem
            · intro hmem
              rw [List.mem_append] at hmem
              rcases hmem with hmem | hmem
              · exact romstage_handoff_not_in_stack_frame_events e s3wake hmem
              · simp at hmem
  · unfold do_fsp_memory_init
    simp [hsig]

/-- Environment in which the module requests a reset while also returning a
non-success status. -/
def resetRequestEnv : FspEnv :=
  { baseEnv with raminit_status := 0x40000003, reset_requested := fun _ => true }

/-- Environment in which the module fails with no reset request. -/
def ramFailEnv : FspEnv :=
  { baseEnv with raminit_status := 0x80000007 }

theorem C7_reset_check_then_status_gate_witness :
    (do_fsp_memory_init resetRequestEnv false (seedMemmap resetRequestEnv)).1 =
      Outcome.full_reset ∧
    (do_fsp_memory_init ramFailEnv false (seedMemmap ramFailEnv)).1 =
      Outcome.die_ram_failure ∧
    Event.romstage_handoff false ∉
      (do_fsp_memory_init ramFailEnv false (seedMemmap ramFailEnv)).2 :=
  ⟨(C7_reset_check_then_status_gate resetRequestEnv false
      (seedMemmap resetRequestEnv)).2.1 rfl (by decide),
   ((C7_reset_check_then_status_gate ramFailEnv false
      (seedMemmap ramFailEnv)).2.2 rfl (by decide) (by decide)).1,
   ((C7_reset_check_then_status_gate ramFailEnv false
      (seedMemmap ramFailEnv)).2.2 rfl (by decide) (by decide)).2.2⟩

theorem seededRegions_append (a b : List Event) :
    seededRegions (a ++ b) = seededRegions a ++ seededRegions b :=
  List.filterMap_append _ _ _

theorem candidateRegions_append (a b : List Event) :
    candidateRegions (a ++ b) = candidateRegions a ++ candidateRegions b :=
  List.filterMap_append _ _ _

theorem seededRegions_seeds (m : memranges) :
    seededRegions (m.map fun r => Event.region_seeded r.base r.size) =
      m.map fun r => (range_entry_base r, range_entry_end r) := by
  induction m with
  | nil => rfl
  | cons r rest ih =>
    simp [seededRegions, range_entry_base, range_entry_end] at ih ⊢
    exact ih

theorem candidateRegions_seeds (m : memranges) :
    candidateRegions (m.map fun r => Event.region_seeded r.base r.size) = [] := by
  induction m with
  | nil => rfl
  | cons r rest ih => simp [candidateRegions, ih]

theorem seededRegions_stack_frame (e : FspEnv) :
    seededRegions (stack_frame_events e) = [] := by
  unfold seededRegions stack_frame_events
  split_ifs <;> rfl

/-- When `fspm_arch_upd_after_cb` succeeded on the CAR path, the candidate
stack range passed the overlap check. -/
theorem after_cb_stack_check (e : FspEnv) (s3 : Bool) (memmap : memranges)
    (a : FSPM_ARCH_UPD)
    (hcb : fspm_arch_upd_after_cb e s3 memmap = some a)
    (hcar : (e.cfg.FSP_USES_CB_STACK || !e.cfg.ENV_CACHE_AS_RAM) = false) :
    check_region_overlap memmap
      (wordSub e.car_region_end e.upd_default.StackSize) e.car_region_end =
      cb_err.CB_SUCCESS := by
  unfold fspm_arch_upd_after_cb fsp_fill_common_arch_params
    setup_fsp_stack_frame at hcb
  rw [hcar] at hcb
  simp only [Bool.false_eq_true, if_false] at hcb
  by_cases hchk : check_region_overlap memmap
      (wordSub e.car_region_end e.upd_default.StackSize) e.car_region_end =
      cb_err.CB_SUCCESS
  · exact hchk
  · exfalso
    simp [hchk] at hcb

theorem stack_frame_candidates (e : FspEnv) (s3 : Bool) (memmap : memranges)
    (a : FSPM_ARCH_UPD)
    (hcb : fspm_arch_upd_after_cb e s3 memmap = some a) :
    ∀ p ∈ candidateRegions (stack_frame_events e),
      check_region_overlap memmap p.1 p.2 = cb_err.CB_SUCCESS := by
  intro p hp
  unfold stack_frame_events at hp
  by_cases hcar : (e.cfg.FSP_USES_CB_STACK || !e.cfg.ENV_CACHE_AS_RAM) = true
  · rw [if_pos hcar] at hp
    simp [candidateRegions] at hp
  · rw [if_neg hcar] at hp
    simp [candidateRegions] at hp
    subst hp
    exact after_cb_stack_check e s3 memmap a hcb (Bool.eq_false_iff.mpr hcar)

theorem post_trace_no_regions (e : FspEnv) (s3 : Bool) (v : Nat) :
    seededRegions (do_fsp_post_memory_init e s3 v).2 = [] ∧
    candidateRegions (do_fsp_post_memory_init e s3 v).2 = [] := by
  unfold do_fsp_post_memory_init save_memory_training_data
  cases hnb : e.nv_hob <;>
    simp only [hnb] <;>
    split_ifs <;>
    simp [seededRegions, candidateRegions]

theorem do_trace_regions (e : FspEnv) (s3wake : Bool) (memmap : memranges) :
    seededRegions (do_fsp_memory_init e s3wake memmap).2 = [] ∧
    ∀ p ∈ candidateRegions (do_fsp_memory_init e s3wake memmap).2,
      check_region_overlap memmap p.1 p.2 = cb_err.CB_SUCCESS := by
  by_cases hsig : e.signature_ok
  · rcases hcb : fspm_arch_upd_after_cb e s3wake memmap with _ | a
    · unfold do_fsp_memory_init
      simp [hsig, hcb, seededRegions, candidateRegions]
    · by_cases hnv : (s3wake && a.NvsBufferPtr.isNone) = true
      · have hD : do_fsp_memory_init e s3wake memmap =
            (Outcome.full_reset, stack_frame_events e) := by
          unfold do_fsp_memory_init
          simp [hsig, hcb, hnv]
        rw [hD]
        exact ⟨seededRegions_stack_frame e,
          stack_frame_candidates e s3wake memmap a hcb⟩
      · by_cases hrr : e.reset_requested e.raminit_status
        · have hD : do_fsp_memory_init e s3wake memmap =
              (Outcome.full_reset, stack_frame_events e ++
                [Event.call_module,
                 Event.handle_reset e.raminit_status]) := by
            unfold do_fsp_memory_init
            simp [hsig, hcb, hnv, hrr]
          rw [hD]
          constructor
          · rw [seededRegions_append, seededRegions_stack_frame e]
            rfl
          · intro p hp
            rw [candidateRegions_append] at hp
            rcases List.mem_append.mp hp with hp | hp
            · exact stack_frame_candidates e s3wake memmap a hcb p hp
            · simp [candidateRegions] at hp
        · by_cases hst : e.raminit_status = FSP_SUCCESS
          · have hrrf : e.reset_requested FSP_SUCCESS = false := by
              rw [← hst]
              exact Bool.eq_false_iff.mpr hrr
            have hD : do_fsp_memory_init e s3wake memmap =
                ((do_fsp_post_memory_init e s3wake
                    (fsp_memory_settings_version e.cfg e.mainboard_version
                      e.soc_version e.hdr_revision)).1,
                  (stack_frame_events e ++
                    [Event.call_module,
                     Event.handle_reset e.raminit_status]) ++
                  (do_fsp_post_memory_init e s3wake
                    (fsp_memory_settings_version e.cfg e.mainboard_version
                      e.soc_version e.hdr_revision)).2) := by
              unfold do_fsp_memory_init
              simp [hsig, hcb, hnv, hrr, hst, hrrf]
            rw [hD]
            constructor
            · rw [seededRegions_append, seededRegions_append,
                seededRegions_stack_frame e,
                (post_trace_no_regions e s3wake _).1]
              rfl
            · intro p hp
              rw [candidateRegions_append, candidateRegions_append] at hp
              rcases List.mem_append.mp hp with hp | hp
              · rcases List.mem_append.mp hp with hp | hp
                · exact stack_frame_candidates e s3wake memmap a hcb p hp
                · simp [candidateRegions] at hp
              · rw [(post_trace_no_regions e s3wake _).2] at hp
                cases hp
          · have hD : do_fsp_memory_init e s3wake memmap =
                (Outcome.die_ram_failure, stack_frame_events e ++
                  [Event.call_module,
                   Event.handle_reset e.raminit_status]) := by
              unfold do_fsp_memory_init
              simp [hsig, hcb, hnv, hrr, hst]
            rw [hD]
            constructor
            · rw [seededRegions_append, seededRegions_stack_frame e]
              rfl
            · intro p hp
              rw [candidateRegions_append] at hp
              rcases List.mem_append.mp hp with hp | hp
              · exact stack_frame_candidates e s3wake memmap a hcb p hp
              · simp [candidateRegions] at hp
  · unfold do_fsp_memory_init
    simp [hsig, seededRegions, candidateRegions]

theorem fsp_load_component_candidates (e : FspEnv) (memmap : memranges)
    (evs : List Event) (h : fsp_load_component e memmap = some evs) :
    ∀ p ∈ candidateRegions evs,
      check_region_overlap memmap p.1 p.2 = cb_err.CB_SUCCESS := by
  intro p hp
  simp only [fsp_load_component, fspm_get_dest] at h
  by_cases hv : (!e.load_validate_ok) = true
  · rw [if_pos hv] at h
    cases h
  · rw [if_neg hv] at h
    by_cases hx : e.cfg.FSP_M_XIP = true
    · rw [if_pos hx, if_neg hv] at h
      by_cases hm : e.xip_map_base ≠ e.hdr_image_base
      · rw [if_pos hm] at h
        cases h
      · rw [if_neg hm] at h
        simp only [Option.some.injEq] at h
        subst h
        simp [candidateRegions] at hp
    · rw [if_neg hx] at h
      by_cases hchk : check_region_overlap memmap e.fsp_m_addr
          (e.fsp_m_addr + e.fspm_component_size) ≠ cb_err.CB_SUCCESS
      · rw [if_pos hchk] at h
        cases h
      · rw [if_neg hchk] at h
        simp only [Option.some.injEq] at h
        subst h
        simp [candidateRegions] at hp
        subst hp
        exact not_not.mp hchk

theorem fsp_load_component_no_seeds (e : FspEnv) (memmap : memranges)
    (evs : List Event) (h : fsp_load_component e memmap = some evs) :
    seededRegions evs = [] := by
  rcases fsp_load_component_events e memmap evs h with rfl | ⟨b, en, rfl⟩ <;> rfl

theorem flow_seeded_eq (e : FspEnv) (s3wake : Bool) :
    seededRegions (fsp_memory_init e s3wake).2 =
      (seedMemmap e).map fun r => (range_entry_base r, range_entry_end r) := by
  rcases hload : fsp_load_component e (seedMemmap e) with _ | evs
  · simp only [fsp_memory_init, hload]
    exact seededRegions_seeds _
  · simp only [fsp_memory_init, hload]
    rw [seededRegions_append, seededRegions_append, seededRegions_seeds,
      fsp_load_component_no_seeds e _ evs hload,
      (do_trace_regions e s3wake _).1, List.append_nil, List.append_nil]

theorem flow_candidates_checked (e : FspEnv) (s3wake : Bool) :
    ∀ p ∈ candidateRegions (fsp_memory_init e s3wake).2,
      check_region_overlap (seedMemmap e) p.1 p.2 = cb_err.CB_SUCCESS := by
  intro p hp
  rcases hload : fsp_load_component e (seedMemmap e) with _ | evs
  · simp only [fsp_memory_init, hload] at hp
    rw [candidateRegions_seeds] at hp
    cases hp
  · simp only [fsp_memory_init, hload] at hp
    rw [candidateRegions_append, candidateRegions_append,
      candidateRegions_seeds] at hp
    rcases List.mem_append.mp hp with hp | hp
    · rcases List.mem_append.mp hp with hp | hp
      · cases hp
      · exact fsp_load_component_candidates e _ evs hload p hp
    · exact (do_trace_regions e s3wake _).2 p hp

/-- `baseEnv` with the FSP-M destination moved to `0x3800`, so that the
accepted FSPM range `[0x3800, 0x4800)` and the accepted FSPM-stack carve
`[0x3000, 0x4000)` overlap although each one passed its own check against
the region map. -/
def overlapAcceptedEnv : FspEnv := { baseEnv with fsp_m_addr := 0x3800 }

/-- C1 counterexample: in `overlapAcceptedEnv` the flow runs to completion —
every overlap check accepted its candidate — yet the accepted regions are not
pairwise disjoint: the FSPM stack carve `[0x3000, 0x4000)` and the non-XIP
FSPM image destination `[0x3800, 0x4800)` are both accepted (each is only
checked against the seeded map, never against each other) and overlap. -/
theorem C1_counterexample :
    (fsp_memory_init overlapAcceptedEnv false).1 = Outcome.completed ∧
    pairwiseDisjoint
      (acceptedRegions (fsp_memory_init overlapAcceptedEnv false).2) =
      false :=
  ⟨rfl, rfl⟩

/-- C1 amended: every candidate range that `check_region_overlap` accepts
during the flow (the FSPM stack carve, the non-XIP FSPM destination) is
disjoint from every entry of the seeded region map; a candidate that
intersects a map entry is rejected before use — the FSPM load dies with
`die_fspm_load`, the stack carve fails parameter building and dies with
`die_arch_upd`.  (Accepted candidates are not inserted back into the map, so
two accepted candidates may overlap each other, as the counterexample
shows.) -/
theorem C1_candidates_disjoint_from_map (e : FspEnv) (s3wake : Bool) :
    (∀ p ∈ candidateRegions (fsp_memory_init e s3wake).2,
      ∀ q ∈ seededRegions (fsp_memory_init e s3wake).2,
        rangesOverlap p q = false) ∧
    (e.cfg.FSP_M_XIP = false → e.load_validate_ok = true →
      check_region_overlap (seedMemmap e) e.fsp_m_addr
        (e.fsp_m_addr + e.fspm_component_size) = cb_err.CB_ERR →
      (fsp_memory_init e s3wake).1 = Outcome.die_fspm_load) ∧
    (∀ evs, e.signature_ok = true →
      (e.cfg.FSP_USES_CB_STACK || !e.cfg.ENV_CACHE_AS_RAM) = false →
      check_region_overlap (seedMemmap e)
        (wordSub e.car_region_end e.upd_default.StackSize) e.car_region_end =
        cb_err.CB_ERR →
      fsp_load_component e (seedMemmap e) = some evs →
      (fsp_memory_init e s3wake).1 = Outcome.die_arch_upd) := by
  refine ⟨?_, ?_, ?_⟩
  · intro p hp q hq
    have hchk := flow_candidates_checked e s3wake p hp
    rw [flow_seeded_eq, List.mem_map] at hq
    obtain ⟨r, hr, rfl⟩ := hq
    have hd := (check_region_overlap_success_iff _ _ _).mp hchk r hr
    simp only [rangesOverlap, range_entry_base, range_entry_end] at hd ⊢
    simp only [decide_eq_false_iff_not, not_lt]
    omega
  · intro hxip hval hchk
    have hload : fsp_load_component e (seedMemmap e) = none := by
      simp [fsp_load_component, fspm_get_dest, hval, hxip, hchk]
    simp only [fsp_memory_init, hload]
  · intro evs hsig hcar hchk hload
    have hcb : fspm_arch_upd_after_cb e s3wake (seedMemmap e) = none := by
      unfold fspm_arch_upd_after_cb fsp_fill_common_arch_params
        setup_fsp_stack_frame
      rw [hcar]
      simp [hchk]
    simp only [fsp_memory_init, hload]
    unfold do_fsp_memory_init
    simp [hsig, hcb]

/-- `baseEnv` with the FSP-M destination placed on top of the program image,
so the FSPM destination check rejects it. -/
def fspmRejectEnv : FspEnv := { baseEnv with fsp_m_addr := 0x8800 }

/-- `baseEnv` with a stack request so large that the carve
`[0x1000, 0x4000)` collides with the allocated CAR entry. -/
def stackRejectEnv : FspEnv :=
  { baseEnv with
      upd_default := { baseEnv.upd_default with StackSize := 0x3000 } }

theorem C1_candidates_disjoint_from_map_witness :
    rangesOverlap (0x20000, 0x21000) (0x1000, 0x2000) = false ∧
    (fsp_memory_init fspmRejectEnv false).1 = Outcome.die_fspm_load ∧
    (fsp_memory_init stackRejectEnv false).1 = Outcome.die_arch_upd :=
  ⟨(C1_candidates_disjoint_from_map baseEnv false).1
      (0x20000, 0x21000) (by decide) (0x1000, 0x2000) (by decide),
   (C1_candidates_disjoint_from_map fspmRejectEnv false).2.1 rfl rfl (by decide),
   (C1_candidates_disjoint_from_map stackRejectEnv false).2.2
      [Event.region_accepted 0x20000 0x21000] rfl rfl (by decide) (by decide)⟩

/-- `baseEnv` where the blob produced no training-data HOB
(`fsp_find_nv_storage_data` returns null). -/
def hobMissingEnv : FspEnv := { baseEnv with nv_hob := none }

/-- C4 counterexample: a cold boot whose module call returns success but
whose training-data HOB is missing completes the flow with zero
`mrc_cache_stash_data` calls — the store is skipped, refuting "the store is
never skipped on a successful non-resume run". -/
theorem C4_counterexample :
    (fsp_memory_init hobMissingEnv false).1 = Outcome.completed ∧
    hobMissingEnv.raminit_status = FSP_SUCCESS ∧
    hobMissingEnv.cfg.CACHE_MRC_SETTINGS = true ∧
    countStash (fsp_memory_init hobMissingEnv false).2 = 0 :=
  ⟨rfl, rfl, rfl, rfl⟩

theorem countStash_post_cold_completed (e : FspEnv) (v : Nat) (d : Nat)
    (h1 : (do_fsp_post_memory_init e false v).1 = Outcome.completed)
    (h2 : e.cfg.CACHE_MRC_SETTINGS = true)
    (h3 : e.nv_hob = some d) :
    countStash (do_fsp_post_memory_init e false v).2 = 1 := by
  unfold do_fsp_post_memory_init save_memory_training_data at h1 ⊢
  simp only [h3, h2] at h1 ⊢
  by_cases hbase : e.fsp_mem_base ≠ e.cbmem_find_base
  · simp [hbase] at h1
  · simp only [hbase, if_neg, ite_not] at h1 ⊢
    cases ht : e.cfg.FSP2_0_USES_TPM_MRC_HASH <;>
      simp [ht, hbase, countStash, List.countP_cons, List.countP_append]

theorem countStash_do_cold_completed (e : FspEnv) (memmap : memranges)
    (d : Nat)
    (h1 : (do_fsp_memory_init e false memmap).1 = Outcome.completed)
    (h2 : e.cfg.CACHE_MRC_SETTINGS = true)
    (h3 : e.nv_hob = some d) :
    countStash (do_fsp_memory_init e false memmap).2 = 1 := by
  by_cases hsig : e.signature_ok
  · rcases hcb : fspm_arch_upd_after_cb e false memmap with _ | a
    · unfold do_fsp_memory_init at h1
      simp [hsig, hcb] at h1
    · by_cases hrr : e.reset_requested e.raminit_status
      · have hD : do_fsp_memory_init e false memmap =
            (Outcome.full_reset, stack_frame_events e ++
              [Event.call_module,
               Event.handle_reset e.raminit_status]) := by
          unfold do_fsp_memory_init
          simp [hsig, hcb, hrr]
        rw [hD] at h1
        cases h1
      · by_cases hst : e.raminit_status = FSP_SUCCESS
        · have hrrf : e.reset_requested FSP_SUCCESS = false := by
            rw [← hst]
            exact Bool.eq_false_iff.mpr hrr
          have hD : do_fsp_memory_init e false memmap =
              ((do_fsp_post_memory_init e false
                  (fsp_memory_settings_version e.cfg e.mainboard_version
                    e.soc_version e.hdr_revision)).1,
                (stack_frame_events e ++
                  [Event.call_module,
                   Event.handle_reset e.raminit_status]) ++
                (do_fsp_post_memory_init e false
                  (fsp_memory_settings_version e.cfg e.mainboard_version
                    e.soc_version e.hdr_revision)).2) := by
            unfold do_fsp_memory_init
            simp [hsig, hcb, hrr, hst, hrrf]
          rw [hD] at h1 ⊢
          rw [countStash_append, countStash_append,
            countStash_stack_frame_events,
            countStash_post_cold_completed e _ d h1 h2 h3]
          rfl
        · have hD : do_fsp_memory_init e false memmap =
              (Outcome.die_ram_failure, stack_frame_events e ++
                [Event.call_module,
                 Event.handle_reset e.raminit_status]) := by
            unfold do_fsp_memory_init
            simp [hsig, hcb, hrr, hst]
          rw [hD] at h1
          cases h1
  · unfold do_fsp_memory_init at h1
    simp [hsig] at h1

/-- C4 amended: on a cold boot that completes the flow (module success and
all post-init gates passed), with caching enabled and the training-data HOB
present, exactly one `mrc_cache_stash_data` call is made — and since the
flow never compares the payload against what is stored, this holds for any
payload, including one byte-identical to the existing cache entry.  (Without
these provisos the claim fails: a missing HOB, or caching disabled, skips the
store even on a successful cold boot.) -/
theorem C4_cold_success_stashes_once (e : FspEnv) (d : Nat)
    (h1 : (fsp_memory_init e false).1 = Outcome.completed)
    (h2 : e.cfg.CACHE_MRC_SETTINGS = true)
    (h3 : e.nv_hob = some d) :
    countStash (fsp_memory_init e false).2 = 1 := by
  rcases hload : fsp_load_component e (seedMemmap e) with _ | evs
  · simp only [fsp_memory_init, hload] at h1
    cases h1
  · simp only [fsp_memory_init, hload] at h1 ⊢
    rw [countStash_append, countStash_append, countStash_seeds]
    have hev0 : countStash evs = 0 := by
      rcases fsp_load_component_events e _ evs hload with rfl | ⟨b, en, rfl⟩ <;>
        rfl
    rw [hev0, countStash_do_cold_completed e _ d h1 h2 h3]

theorem C4_cold_success_stashes_once_witness :
    countStash (fsp_memory_init baseEnv false).2 = 1 :=
  C4_cold_success_stashes_once baseEnv 0x42 rfl rfl rfl

end FspMemInit
